import Mathlib

/-!
Verification development for the ShapeMeAI orchestration core.

The TypeScript sources are shallowly embedded as total Lean functions:

* upstream network calls (Alchemy SDK, text generation) are modelled by
  passing their outcome explicitly (`CallOutcome`, `GenerationOutcome`);
* the regular-expression extraction of the first brace-delimited substring
  of a generated text followed by `JSON.parse` is modelled by passing the
  decoded result directly: `none` stands for "no match or the matched
  substring failed to decode", and a successful decode of a string that
  starts with a brace is necessarily a JSON object, so the success case
  carries the object's field list;
* JavaScript numbers are modelled as rationals; the unrepresentable `NaN`
  produced by numeric coercion of non-numeric values is modelled as `none`
  in an `Option` result;
* progress callbacks are pure observers and are returned as event lists.
-/

namespace ShapeMeAI

/-- JSON values as produced by `JSON.parse`. Numbers are rationals: JSON
number literals are finite decimal numerals. -/
inductive Json where
  | null
  | bool (b : Bool)
  | num (q : ℚ)
  | str (s : String)
  | arr (elems : List Json)
  | obj (fields : List (String × Json))

/-- JavaScript truthiness of a JSON value. -/
def jsTruthy : Json → Bool
  | .null => false
  | .bool b => b
  | .num q => q != 0
  | .str s => s != ""
  | .arr _ => true
  | .obj _ => true

/-- Field lookup on a decoded JSON object. `JSON.parse` keeps the last
occurrence of a duplicated key, hence the search over the reversed list. -/
def jsonField (fields : List (String × Json)) (key : String) : Option Json :=
  (fields.reverse.find? (fun p => p.1 == key)).map (fun p => p.2)

/-- Numeric value of one decimal digit character. -/
def digitVal (c : Char) : Option Nat :=
  if '0' ≤ c ∧ c ≤ '9' then some (c.toNat - 48) else none

/-- Value of a nonempty all-digit character list, `none` otherwise. -/
def digitsToNat (l : List Char) : Option Nat :=
  if l.isEmpty then none
  else
    l.foldl
      (fun acc c =>
        match acc, digitVal c with
        | some a, some d => some (a * 10 + d)
        | _, _ => none)
      (some 0)

/-- Splits a character list at every dot, keeping empty segments, with
an accumulator for the segment being read. -/
def splitOnDot : List Char → List Char → List (List Char)
  | [], acc => [acc.reverse]
  | c :: rest, acc =>
    if c = '.' then acc.reverse :: splitOnDot rest []
    else splitOnDot rest (c :: acc)

/-- JavaScript `Number(string)` restricted to plain decimal numerals
(optionally signed, optional fractional part); exponent, hexadecimal and
`Infinity` forms are not produced by the inputs of this development and
evaluate to `none` (NaN). The empty or all-whitespace string converts
to `0`. Implemented over the character list. -/
def parseDecString (s : String) : Option ℚ :=
  let t := ((s.data.dropWhile Char.isWhitespace).reverse.dropWhile Char.isWhitespace).reverse
  if t = [] then some 0
  else
    let sign : ℚ := if t.head? = some '-' then -1 else 1
    let rest := if t.head? = some '-' ∨ t.head? = some '+' then t.drop 1 else t
    match splitOnDot rest [] with
    | [ip] => (digitsToNat ip).map (fun n => sign * (n : ℚ))
    | [ip, fp] =>
      if ip = [] ∧ fp = [] then none
      else
        match (if ip = [] then some 0 else digitsToNat ip),
              (if fp = [] then some 0 else digitsToNat fp) with
        | some a, some b =>
          some (sign * ((a : ℚ) + (b : ℚ) / ((10 : ℚ) ^ fp.length)))
        | _, _ => none
    | _ => none

/-- JavaScript `ToNumber` on a JSON value; `none` models NaN. A
one-element array coerces through its element, the empty array to `0`. -/
def jsToNum : Json → Option ℚ
  | .null => some 0
  | .bool b => some (if b then 1 else 0)
  | .num q => some q
  | .str s => parseDecString s
  | .arr [] => some 0
  | .arr [Json.num q] => some q
  | .arr _ => none
  | .obj _ => none

/-- Display form of a rational as JavaScript would print the number;
integers print without a denominator. -/
def ratToJsString (q : ℚ) : String :=
  if q.den = 1 then toString q.num else toString q

mutual

/-- JavaScript `String(value)` on a JSON value (arrays join their
elements with commas, objects print as the generic object tag). -/
def jsToString : Json → String
  | .null => "null"
  | .bool b => if b then "true" else "false"
  | .num q => ratToJsString q
  | .str s => s
  | .arr xs => String.intercalate "," (jsToStringList xs)
  | .obj _ => "[object Object]"

/-- Display forms of a list of JSON values. -/
def jsToStringList : List Json → List String
  | [] => []
  | x :: xs => jsToString x :: jsToStringList xs

end

/-- Does the string `t` occur as a contiguous substring of `s`? -/
def strContains (s t : String) : Bool :=
  (List.range (s.length + 1)).any (fun i => t.data.isPrefixOf (s.data.drop i))

/-- `src/lib/collections-data.ts`: the `Collection` record. Optional
fields are `none` when the source holds `null`. -/
structure Collection where
  contractAddress : String
  name : Option String
  symbol : Option String
  totalSupply : Option Int
  owners : Option Int
  image : String
  openSeaUrl : String
  originalUrl : String
deriving DecidableEq, Repr

/-- `PersonaAnalysisResult` of the Claude integration module. The
`confidence` field is `none` when the JavaScript computation yields NaN. -/
structure PersonaAnalysisResult where
  selectedCollections : List Collection
  reasoning : String
  confidence : Option ℚ
deriving DecidableEq, Repr

/-- Outcome of one `generateText` invocation followed by the
brace-substring extraction and `JSON.parse` of its text: the call threw
with a message, or it returned text whose decode failed (`none`), or
decoded to a JSON object with the given fields. -/
inductive GenerationOutcome where
  | threw (message : String)
  | returned (decoded : Option (List (String × Json)))

/-- The element-wise behaviour of `parsed.selectedCollections.map((index)
=> allCollections[index - 1])` followed by `.filter(Boolean)`: the
element is coerced to a number, `1` is subtracted, and the array is
indexed; any index that is not an integer inside `[0, length)` yields
`undefined`, which the filter drops. -/
def selectIndex (allCollections : List Collection) (ix : Json) : Option Collection :=
  match jsToNum ix with
  | some q => if q.den = 1 ∧ 1 ≤ q then allCollections.get? (q.num - 1).toNat else none
  | none => none

/-- `Math.max(0, Math.min(1, parsed.confidence || 0.5))`: a falsy or
absent confidence is replaced by `0.5` before clamping; a truthy value is
coerced to a number (`none` = NaN propagates through min and max). -/
def confVal (o : Option Json) : Option ℚ :=
  match o with
  | none => some (1 / 2)
  | some v =>
    if jsTruthy v then (jsToNum v).map (fun q => max 0 (min 1 q))
    else some (1 / 2)

/-- `parsed.reasoning || 'AI analysis completed'`. -/
def reasoningVal (o : Option Json) : String :=
  match o with
  | none => "AI analysis completed"
  | some v => if jsTruthy v then jsToString v else "AI analysis completed"

/-- Does the decoded object carry an array-typed `selectedCollections`
field? The source throws (and falls back) exactly when this is false. -/
def selHasArray (fields : List (String × Json)) : Bool :=
  match jsonField fields "selectedCollections" with
  | some (.arr _) => true
  | _ => false

/-- `parseClaudeResponse` of the Claude integration module. The argument
`decoded` is the result of extracting and decoding the first
brace-delimited substring of the response text (`none` when that throws). -/
def parseClaudeResponse (decoded : Option (List (String × Json)))
    (allCollections : List Collection) : PersonaAnalysisResult :=
  match decoded with
  | none =>
    { selectedCollections := allCollections.take 2
      reasoning := "AI response parsing failed, using fallback selection"
      confidence := some (1 / 5) }
  | some fields =>
    match jsonField fields "selectedCollections" with
    | some (.arr idxs) =>
      { selectedCollections := (idxs.filterMap (selectIndex allCollections)).take 4
        reasoning := reasoningVal (jsonField fields "reasoning")
        confidence := confVal (jsonField fields "confidence") }
    | _ =>
      { selectedCollections := allCollections.take 2
        reasoning := "AI response parsing failed, using fallback selection"
        confidence := some (1 / 5) }

/-- `analyzePersonaCollections` of the Claude integration module. Prompt
construction is a pure string concatenation; any throw of the generation
call is the `threw` case and is converted to the low-confidence fallback.
The function is total: it never raises to its caller. -/
def analyzePersonaCollections (gen : GenerationOutcome)
    (allCollections : List Collection) : PersonaAnalysisResult :=
  match gen with
  | .threw message =>
    { selectedCollections := allCollections.take 2
      reasoning := "AI analysis failed, showing first 2 collections as fallback. Error: " ++ message
      confidence := some (1 / 10) }
  | .returned decoded => parseClaudeResponse decoded allCollections

/-- Outcome of one upstream SDK call as observed at the call site:
the capability threw synchronously at invocation, or it returned a
promise that rejected (`Promise.allSettled` reports it as rejected —
the timeout and network-failure mode), or it fulfilled with a value. -/
inductive CallOutcome (α : Type) where
  | threw
  | rejected
  | fulfilled (value : α)
deriving DecidableEq

/-- The `contract` part of an Alchemy NFT record; `totalSupply` is a
decimal string in the SDK response. -/
structure NftContract where
  name : Option String
  symbol : Option String
  totalSupply : Option String
deriving DecidableEq

/-- The `image` part of an Alchemy NFT record. -/
structure NftImage where
  originalUrl : Option String
  cachedUrl : Option String
deriving DecidableEq

/-- One NFT record of a `getNftsForContract` response. -/
structure Nft where
  contract : NftContract
  image : NftImage
deriving DecidableEq

/-- A `getNftsForContract` response. -/
structure NftsForContractResponse where
  nfts : List Nft
deriving DecidableEq

/-- A `getOwnersForContract` response. -/
structure OwnersForContractResponse where
  owners : List String
deriving DecidableEq

/-- The pair of upstream calls issued by `fetchCollectionData` for one
contract address. -/
structure UpstreamOutcome where
  nftsCall : CallOutcome NftsForContractResponse
  ownersCall : CallOutcome OwnersForContractResponse

/-- `a || b` on nullable strings: the empty string is falsy. -/
def jsOptOr (a b : Option String) : Option String :=
  match a with
  | some s => if s = "" then b else some s
  | none => b

/-- Final stage of a `||` chain ending in a mandatory string. -/
def jsStrOr (a : Option String) (b : String) : String :=
  match a with
  | some s => if s = "" then b else s
  | none => b

/-- `x || null` on a nullable string: the empty string becomes null. -/
def jsOrNull (a : Option String) : Option String :=
  jsOptOr a none

/-- JavaScript `parseInt` on a string: optional sign, then the longest
leading run of decimal digits; `none` models NaN. -/
def parseIntJS (s : String) : Option Int :=
  let t := s.trim
  let sign : Int := if t.startsWith "-" then -1 else 1
  let rest := if t.startsWith "-" ∨ t.startsWith "+" then t.drop 1 else t
  let digits := rest.data.takeWhile (fun c => '0' ≤ c ∧ c ≤ '9')
  (digitsToNat digits).map (fun n => sign * (n : Int))

/-- Truncation of a rational toward zero, the effect of `parseInt` on the
decimal printing of a JavaScript number. -/
def ratTrunc (q : ℚ) : Int :=
  if 0 ≤ q then q.floor else -((-q).floor)

/-- `parseInt(value)` on an optional JSON value; `none` models NaN. -/
def parseIntJson : Option Json → Option Int
  | none => none
  | some (.num q) => some (ratTrunc q)
  | some (.str s) => parseIntJS s
  | some (.arr xs) => parseIntJS (jsToString (.arr xs))
  | some _ => none

/-- One hexadecimal digit in upper case, as `encodeURIComponent` emits. -/
def hexDigit (n : Nat) : Char :=
  if n < 10 then Char.ofNat (48 + n) else Char.ofNat (55 + n)

/-- UTF-8 bytes of a character. -/
def utf8Bytes (c : Char) : List Nat :=
  let n := c.toNat
  if n < 128 then [n]
  else if n < 2048 then [192 + n / 64, 128 + n % 64]
  else if n < 65536 then [224 + n / 4096, 128 + (n / 64) % 64, 128 + n % 64]
  else [240 + n / 262144, 128 + (n / 4096) % 64, 128 + (n / 64) % 64, 128 + n % 64]

/-- Characters `encodeURIComponent` leaves unescaped. -/
def isUnescapedURI (c : Char) : Bool :=
  ('A' ≤ c ∧ c ≤ 'Z') ∨ ('a' ≤ c ∧ c ≤ 'z') ∨ ('0' ≤ c ∧ c ≤ '9') ∨
    c ∈ ['-', '_', '.', '!', '~', '*', Char.ofNat 39, '(', ')']

/-- JavaScript `encodeURIComponent`. -/
def encodeURIComponent (s : String) : String :=
  String.join (s.data.map (fun c =>
    if isUnescapedURI c then String.singleton c
    else String.join ((utf8Bytes c).map (fun b =>
      "%" ++ String.singleton (hexDigit (b / 16)) ++ String.singleton (hexDigit (b % 16))))))

/-- The placeholder image URI built from a display text. -/
def placeholderImage (text : String) : String :=
  "https://via.placeholder.com/300x300?text=" ++ encodeURIComponent text

/-- `fetchCollectionData` of `src/lib/shape-collections-fetcher.ts`. The
two upstream calls run under `Promise.allSettled`, so a rejected promise
is handled in the normal path with its data treated as absent; only a
synchronous throw of a capability at invocation reaches the catch block
that builds the degraded "Unknown Collection" record. Total: never
raises to its caller. -/
def fetchCollectionData (upstream : UpstreamOutcome) (contractAddress : String) : Collection :=
  if upstream.nftsCall = CallOutcome.threw ∨ upstream.ownersCall = CallOutcome.threw then
    { contractAddress := contractAddress
      name := some ("Unknown Collection (" ++ contractAddress.take 6 ++ "...)")
      symbol := none
      totalSupply := none
      owners := none
      image := "https://via.placeholder.com/300x300?text=Error+Loading"
      openSeaUrl := "https://opensea.io/assets/shape/" ++ contractAddress
      originalUrl := "https://shape.network/collection/" ++ contractAddress }
  else
    let nftsData : Option NftsForContractResponse :=
      match upstream.nftsCall with
      | .fulfilled v => some v
      | _ => none
    let ownersData : Option OwnersForContractResponse :=
      match upstream.ownersCall with
      | .fulfilled v => some v
      | _ => none
    let firstNft := nftsData.bind (fun r => r.nfts.head?)
    let collectionName := jsOrNull (firstNft.bind (fun n => n.contract.name))
    let collectionSymbol := jsOrNull (firstNft.bind (fun n => n.contract.symbol))
    let totalSupply : Option Int :=
      match firstNft.bind (fun n => n.contract.totalSupply) with
      | some s => if s = "" then none else parseIntJS s
      | none => none
    let uniqueOwners : Option Int := ownersData.map (fun r => (r.owners.length : Int))
    let collectionImage :=
      jsStrOr
        (jsOptOr (firstNft.bind (fun n => n.image.originalUrl))
          (firstNft.bind (fun n => n.image.cachedUrl)))
        (placeholderImage (collectionName.getD "Collection"))
    { contractAddress := contractAddress
      name := collectionName
      symbol := collectionSymbol
      totalSupply := totalSupply
      owners := uniqueOwners
      image := collectionImage
      openSeaUrl := "https://opensea.io/assets/shape/" ++ contractAddress
      originalUrl := "https://shape.network/collection/" ++ contractAddress }

/-- The hardcoded curated contract list of
`src/lib/shape-collections-fetcher.ts`, in source order. -/
def SHAPE_COLLECTION_CONTRACTS : List String := [
  "0x6E148B55e4Cd30Ea6727d7E0661c3918A6C4E9Db",
  "0xdad1276ecd6d27116da400b33c81ce49d91d5831",
  "0x5fa1fdb5fe2c315abaad750dae700747f250b0c2",
  "0xab3a867a6b14cc2f3286b9f03698656f8a892e9e",
  "0xf2e4b2a15872a20d0ffb336a89b94ba782ce9ba5",
  "0x3ea45cecbf513dfc8527b585cfbf0f474d130925",
  "0xadede2a59b46ef9815e349464ea14d40195d4a2b",
  "0xa311e4ab8afea4f152da8f02a9d789c6d43fd1f3",
  "0xf520f9297fc6f6ab186c911e41f715634d5a2de2",
  "0xbb8f2711bd4bc98223990267f771e97d2d9bc167",
  "0x4E454C9aBCaD9780F3569E494d7EdE3CB6575b01",
  "0xb6d2a34815055f2844aeb69d3386c605208a96cb",
  "0xe112Cf01c6cE916fFC2bDc350cC405E8357285DF",
  "0xB33F463369c1C53B2fD9260877565d5624CCDDd9",
  "0x0c86384cbe928421b88ef6f3787afd9261d04346",
  "0x758bb513346939825a2094a1d4fbd9135514d67e"]

/-- JavaScript `Math.round`: half integers round toward positive
infinity. -/
def jround (q : ℚ) : Int :=
  (q + 1 / 2).floor

/-- `fetchAllShapeCollections`: iterates the hardcoded contract list in
order; each item always contributes one record (the callee masks its own
failures), and the progress values reported are the initial `0`, then
`Math.round((i / N) * 100)` before each item, then the final `100`. The
status strings accompanying the progress values are omitted. -/
def fetchAllShapeCollections (upstream : String → UpstreamOutcome) :
    List Collection × List Int :=
  let totalContracts := SHAPE_COLLECTION_CONTRACTS.length
  let collections :=
    SHAPE_COLLECTION_CONTRACTS.map (fun a => fetchCollectionData (upstream a) a)
  let progress :=
    0 :: (((List.range totalContracts).map
      (fun i => jround ((i : ℚ) / (totalContracts : ℚ) * 100))) ++ [100])
  (collections, progress)

/-- ASCII lowercasing of one character, the effect of
`String.prototype.toLowerCase` on the ASCII range. -/
def charToLower (c : Char) : Char :=
  if 'A' ≤ c ∧ c ≤ 'Z' then Char.ofNat (c.toNat + 32) else c

/-- `contractAddress.toLowerCase()` for ASCII addresses, mapped over the
character list. -/
def jsToLowerCase (s : String) : String :=
  String.mk (s.data.map charToLower)

/-- `isShapeNetworkCollection`: membership of the lowercased address in
the curated list, compared character for character. -/
def isShapeNetworkCollection (contractAddress : String) : Bool :=
  SHAPE_COLLECTION_CONTRACTS.contains (jsToLowerCase contractAddress)

/-- The static fallback dataset of `src/lib/collections-data.ts`,
returned by `loadFallbackCollections`. -/
def fallbackCollections : List Collection := [
  { contractAddress := "0x6E148B55e4Cd30Ea6727d7E0661c3918A6C4E9Db"
    name := some "Almost Normal"
    symbol := some "NORMAL"
    totalSupply := some 2500
    owners := some 800
    image := "https://via.placeholder.com/300x300?text=Almost+Normal"
    openSeaUrl := "https://opensea.io/collection/almost-normal"
    originalUrl := "https://almostnormal.xyz" },
  { contractAddress := "0xdad1276ecd6d27116da400b33c81ce49d91d5831"
    name := some "Shape Punks"
    symbol := some "SPUNK"
    totalSupply := some 1000
    owners := some 600
    image := "https://via.placeholder.com/300x300?text=Shape+Punks"
    openSeaUrl := "https://opensea.io/collection/shape-punks"
    originalUrl := "https://shapepunks.com" },
  { contractAddress := "0x5fa1fdb5fe2c315abaad750dae700747f250b0c2"
    name := some "DEFAULT_STATE.EXE"
    symbol := some "DSE"
    totalSupply := some 500
    owners := some 300
    image := "https://via.placeholder.com/300x300?text=DEFAULT_STATE"
    openSeaUrl := "https://opensea.io/collection/default-state-exe"
    originalUrl := "https://defaultstate.xyz" }]

/-- Environment of one `loadCollectionsCache` call: the connectivity
probe result, whether an unexpected exception interrupts the
successful-probe path after the probe (for instance the dynamic import
or the batch fetch throwing), and the upstream outcomes seen by the
batch fetch. -/
structure LoadEnv where
  connected : Bool
  unexpectedError : Bool
  upstream : String → UpstreamOutcome

/-- Observable result of one `loadCollectionsCache` call: the returned
sequence, the cache contents after the call, and how many times the
connectivity probe and the upstream batch fetch were invoked. -/
structure LoadResult where
  result : List Collection
  cache : List Collection
  connectionTests : Nat
  batchFetches : Nat

/-- `loadCollectionsCache` of `src/lib/collections-data.ts` with the
module-level `CACHED_COLLECTIONS` variable passed explicitly. A
populated cache short-circuits; a failed probe or an unexpected
exception falls back to the static dataset; either way the cache is
stored before returning. Total: never raises to its caller. -/
def loadCollectionsCache (env : LoadEnv) (cache : List Collection) : LoadResult :=
  if cache.length > 0 then
    { result := cache, cache := cache, connectionTests := 0, batchFetches := 0 }
  else if !env.connected then
    { result := fallbackCollections, cache := fallbackCollections
      connectionTests := 1, batchFetches := 0 }
  else if env.unexpectedError then
    { result := fallbackCollections, cache := fallbackCollections
      connectionTests := 1, batchFetches := 1 }
  else
    let collections := (fetchAllShapeCollections env.upstream).1
    { result := collections, cache := collections
      connectionTests := 1, batchFetches := 1 }

/-- `clearCollectionsCache`: resets the module-level cache. -/
def clearCollectionsCache : List Collection :=
  []

/-- One asset-transfer event of a `getAssetTransfers` response. The
source fields `from` and `to` are renamed (`from` is reserved in Lean). -/
structure Transfer where
  fromAddr : String
  toAddr : String
deriving DecidableEq

/-- `MarketAnalytics` of `src/lib/analytics-service.ts`; the enumerated
union types of the source are carried as their literal strings. -/
structure MarketAnalytics where
  transferCount24h : Nat
  uniqueTraders24h : Nat
  liquidityScore : ℚ
  momentum : String
  avgTransactionValue : ℚ
deriving DecidableEq

/-- `HolderAnalytics` of `src/lib/analytics-service.ts`. -/
structure HolderAnalytics where
  totalHolders : Nat
  concentrationRatio : ℚ
  whaleHolders : Int
  crossCollectionHolders : Int
  distribution : String
deriving DecidableEq

/-- `ActivityAnalytics` of `src/lib/analytics-service.ts`. -/
structure ActivityAnalytics where
  transferVelocity : ℚ
  tradingPattern : String
  gasEfficiency : String
  peakActivity : String
  trendDirection : String
deriving DecidableEq

/-- `AIAnalytics` of `src/lib/analytics-service.ts`. -/
structure AIAnalytics where
  investmentThesis : String
  confidenceScore : Int
  culturalSignificance : String
  riskFactors : List String
  opportunities : List String
  comparableCollections : List String
  collectorProfile : String
  reasoning : String
deriving DecidableEq

/-- `fetchMarketHealth` applied to the `transfers` array of a fulfilled
`getAssetTransfers` response (the function rethrows upstream errors
unchanged, so only the fulfilled path computes anything). -/
def fetchMarketHealth (collection : Collection) (transfers : List Transfer) :
    MarketAnalytics :=
  let recentTransfers := transfers.take 20
  let transferCount24h := recentTransfers.length
  let uniqueTraders24h :=
    ((recentTransfers.map (fun t => t.fromAddr)) ++
      (recentTransfers.map (fun t => t.toAddr))).dedup.length
  let momentum :=
    if transferCount24h > 10 then "bullish"
    else if transferCount24h > 5 then "neutral" else "bearish"
  let liquidityScore : ℚ := min 100 ((transferCount24h : ℚ) * 5)
  { transferCount24h := transferCount24h
    uniqueTraders24h := uniqueTraders24h
    liquidityScore := liquidityScore
    momentum := momentum
    avgTransactionValue := 1 / 10 }

/-- Display form of a nullable number under template interpolation:
`null` interpolates as the string "null". -/
def showNullableInt : Option Int → String
  | some n => toString n
  | none => "null"

/-- `fetchAIAnalysis` of `src/lib/analytics-service.ts`: the local
heuristic deep-dive synthesis. Pure given its inputs; total. -/
def fetchAIAnalysis (collection : Collection)
    (marketHealth : Option MarketAnalytics)
    (holderAnalysis : Option HolderAnalytics)
    (activityTrends : Option ActivityAnalytics) : AIAnalytics :=
  let tc : String × ℚ :=
    match marketHealth, holderAnalysis, activityTrends with
    | some m, some h, some a =>
      let marketScore : ℚ :=
        if m.momentum = "bullish" then 80
        else if m.momentum = "neutral" then 60 else 40
      let holderScore : ℚ := if h.concentrationRatio < 50 then 80 else 60
      let activityScore : ℚ :=
        if a.tradingPattern = "active" then 80
        else if a.tradingPattern = "accumulating" then 70 else 50
      let overallScore := (marketScore + holderScore + activityScore) / 3
      (if overallScore > 75 then "buy"
       else if overallScore < 50 then "avoid" else "hold", overallScore)
    | _, _, _ =>
      let supply := collection.totalSupply.getD 0
      let holders := collection.owners.getD 0
      if supply > 0 ∧ (holders : ℚ) > (supply : ℚ) * (3 / 10) then ("buy", 65)
      else if supply > 10000 then ("avoid", 60)
      else ("hold", 50)
  let investmentThesis := tc.1
  let confidenceScore := tc.2
  let riskList : List String :=
    (match marketHealth with
     | some m => if m.liquidityScore < 30 then ["Low liquidity score may impact trading"] else []
     | none => []) ++
    (match holderAnalysis with
     | some h => if h.concentrationRatio > 70 then ["High holder concentration risk"] else []
     | none => []) ++
    (if (match activityTrends with
         | none => true
         | some a => a.transferVelocity < 5) then ["Limited recent trading activity"] else [])
  let riskFactors :=
    if riskList = [] then ["General market volatility", "Shape Network adoption risk"]
    else riskList
  let oppList : List String :=
    (match marketHealth with
     | some m => if m.momentum = "bullish" then ["Positive market momentum"] else []
     | none => []) ++
    (match holderAnalysis with
     | some h =>
       if (h.crossCollectionHolders : ℚ) > (h.totalHolders : ℚ) * (1 / 2) then
         ["Strong cross-collection network effects"]
       else []
     | none => []) ++
    (match activityTrends with
     | some a => if a.gasEfficiency = "high" then ["Optimized for Shape Network efficiency"] else []
     | none => [])
  let opportunities :=
    if oppList = [] then
      ["Early Shape Network ecosystem participation", "Potential for community growth"]
    else oppList
  { investmentThesis := investmentThesis
    confidenceScore := jround confidenceScore
    culturalSignificance :=
      (collection.name.getD "null") ++ " represents " ++
      (if collection.totalSupply.getD 0 < 1000 then "exclusive" else "accessible") ++
      " digital culture on Shape Network, appealing to " ++
      (if investmentThesis = "buy" then "growth-oriented"
       else if investmentThesis = "avoid" then "risk-averse" else "balanced") ++
      " collectors."
    riskFactors := riskFactors.take 3
    opportunities := opportunities.take 3
    comparableCollections := [
      if collection.totalSupply.getD 0 < 1000 then "CryptoPunks (exclusivity)"
      else "Bored Apes (community)",
      if collection.owners.getD 0 > 500 then "Azuki (engagement)"
      else "Moonbirds (curation)"]
    collectorProfile :=
      (if investmentThesis = "buy" then "Aggressive"
       else if investmentThesis = "avoid" then "Conservative" else "Moderate") ++
      " collectors interested in " ++
      (if collection.totalSupply.getD 0 < 1000 then "rare" else "community-driven") ++
      " Shape Network assets"
    reasoning :=
      (collection.name.getD "null") ++ " shows " ++
      (if confidenceScore > 70 then "strong"
       else if confidenceScore > 50 then "moderate" else "limited") ++
      " potential with " ++ showNullableInt collection.owners ++ " holders and " ++
      showNullableInt collection.totalSupply ++ " supply. " ++
      (match marketHealth with
       | some m => "Market momentum is " ++ m.momentum ++ "."
       | none => "Limited market data available.") ++ " " ++
      (match holderAnalysis with
       | some h =>
         "Ownership is " ++
         (if h.concentrationRatio > 50 then "concentrated" else "distributed") ++ "."
       | none => "") }

/-- The `collection` object of an `/ai-analysis` request body: only the
fields the handler reads outside the prompt. An absent or empty
`contractAddress` is falsy and fails validation; an absent `name`
interpolates as "undefined" in template strings. -/
structure RequestCollection where
  contractAddress : Option String
  name : Option String

/-- An `/ai-analysis` request body. The analytics snapshots only feed
the prompt text, which is input to the modelled generation oracle, so
they are not carried here. -/
structure AIAnalysisRequest where
  collection : Option RequestCollection

/-- The HTTP responses the `/ai-analysis` handler produces. -/
inductive RouteResponse where
  | success (analysis : AIAnalytics)
  | clientError (error : String)
  | serverError (error : String)
  | serverFailure (error : String) (details : String)
deriving DecidableEq

/-- `value || default` for a string-valued output field of the route:
an absent or falsy field takes the default, a truthy non-string value
passes through in its display form. -/
def routeStr (o : Option Json) (dflt : String) : String :=
  match o with
  | none => dflt
  | some v => if jsTruthy v then jsToString v else dflt

/-- `Array.isArray(value) ? value.slice(0, maxLen) : default` for an
array-valued output field of the route; elements are carried in their
display form (the identity on strings). -/
def routeStrList (o : Option Json) (maxLen : Nat) (dflt : List String) : List String :=
  match o with
  | some (.arr xs) => (xs.take maxLen).map jsToString
  | _ => dflt

/-- The defensive field-by-field structuring of a decoded Claude
analysis in the `/ai-analysis` handler. -/
def buildRouteAnalysis (collection : RequestCollection)
    (fields : List (String × Json)) : AIAnalytics :=
  let nameStr := collection.name.getD "undefined"
  { investmentThesis := routeStr (jsonField fields "investmentThesis") "hold"
    confidenceScore :=
      (let k : Int :=
        match parseIntJson (jsonField fields "confidenceScore") with
        | some v => if v = 0 then 50 else v
        | none => 50
      max 0 (min 100 k))
    culturalSignificance :=
      routeStr (jsonField fields "culturalSignificance")
        (nameStr ++ " represents unique digital culture on Shape Network.")
    riskFactors :=
      routeStrList (jsonField fields "riskFactors") 3
        ["General market volatility", "Shape Network adoption risk"]
    opportunities :=
      routeStrList (jsonField fields "opportunities") 3
        ["Early ecosystem participation", "Potential for growth"]
    comparableCollections :=
      routeStrList (jsonField fields "comparableCollections") 2
        ["Similar Shape Network Collections", "Emerging NFT Projects"]
    collectorProfile :=
      routeStr (jsonField fields "collectorProfile")
        "Collectors interested in Shape Network digital assets"
    reasoning :=
      routeStr (jsonField fields "reasoning")
        (nameStr ++ " shows potential as a Shape Network collection.") }

/-- The `/ai-analysis` `POST` handler of the server route: validation,
credential check, generation, brace-substring extraction plus
`JSON.parse` (modelled by the decoded object carried in `gen`), then
defensive structuring. A missing JSON match is a hard failure that the
top-level catch converts to a 500 response with error and details. -/
def aiAnalysisPOST (body : AIAnalysisRequest) (hasApiKey : Bool)
    (gen : GenerationOutcome) : RouteResponse :=
  match body.collection with
  | none => .clientError "Invalid request: collection data required"
  | some collection =>
    if collection.contractAddress.getD "" = "" then
      .clientError "Invalid request: collection data required"
    else if !hasApiKey then
      .serverError "Anthropic API key not configured"
    else
      match gen with
      | .threw message => .serverFailure "AI analysis failed" message
      | .returned none =>
        .serverFailure "AI analysis failed" "No JSON found in Claude response"
      | .returned (some fields) => .success (buildRouteAnalysis collection fields)

/-- Market score of the spec's local heuristic path, written from the
spec text for comparison with `fetchAIAnalysis`. -/
def specMarketScore (m : MarketAnalytics) : ℚ :=
  if m.momentum = "bullish" then 80 else if m.momentum = "neutral" then 60 else 40

/-- Holder score of the spec's local heuristic path. -/
def specHolderScore (h : HolderAnalytics) : ℚ :=
  if h.concentrationRatio < 50 then 80 else 60

/-- Activity score of the spec's local heuristic path. -/
def specActivityScore (a : ActivityAnalytics) : ℚ :=
  if a.tradingPattern = "active" then 80
  else if a.tradingPattern = "accumulating" then 70 else 50

/-- Mean of the three spec scores. -/
def specOverall (m : MarketAnalytics) (h : HolderAnalytics) (a : ActivityAnalytics) : ℚ :=
  (specMarketScore m + specHolderScore h + specActivityScore a) / 3

/-- Thesis selection of the spec's local heuristic path. -/
def specThesis (overall : ℚ) : String :=
  if overall > 75 then "buy" else if overall < 50 then "avoid" else "hold"

/-- A market snapshot with bullish momentum, for concrete instances. -/
def bullishMarket : MarketAnalytics :=
  { transferCount24h := 11, uniqueTraders24h := 8, liquidityScore := 55
    momentum := "bullish", avgTransactionValue := 1 / 10 }

/-- A holder snapshot with concentration ratio 40, for concrete
instances. -/
def lowConcentrationHolder : HolderAnalytics :=
  { totalHolders := 600, concentrationRatio := 40, whaleHolders := 30
    crossCollectionHolders := 180, distribution := "balanced" }

/-- An activity snapshot with the active trading pattern, for concrete
instances. -/
def activeTrading : ActivityAnalytics :=
  { transferVelocity := 24, tradingPattern := "active", gasEfficiency := "high"
    peakActivity := "Evening (7-9 PM UTC)", trendDirection := "up" }

/-- `n` synthetic transfer events with pairwise distinct addresses. -/
def mkTransferList (n : Nat) : List Transfer :=
  (List.range n).map (fun i => { fromAddr := "0xsender" ++ toString i
                                 toAddr := "0xbuyer" ++ toString i })

/-- A concrete collection record for closed instances. -/
def sampleCollection : Collection :=
  { contractAddress := "0x758bb513346939825a2094a1d4fbd9135514d67e"
    name := some "Fragmented Order"
    symbol := none
    totalSupply := some 777
    owners := some 300
    image := "https://via.placeholder.com/300x300?text=Fragmented+Order"
    openSeaUrl := "https://opensea.io/assets/shape/0x758bb513346939825a2094a1d4fbd9135514d67e"
    originalUrl := "https://shape.network/collection/0x758bb513346939825a2094a1d4fbd9135514d67e" }

/-- C1: `analyzePersonaCollections` never raises to its caller; a throw
of prompt construction or of the generation call yields the first 2
input collections in input order with confidence 0.1 and a reasoning
string that includes the underlying error message, while a response with
no parseable JSON, or with a missing or non-array-typed
`selectedCollections`, yields the first 2 input collections with
confidence 0.2 — two distinct low-confidence fallback levels. -/
theorem analyzePersonaCollections_fallback_levels
    (message : String) (allCollections : List Collection)
    (fields : List (String × Json)) (hsel : selHasArray fields = false) :
    analyzePersonaCollections (.threw message) allCollections =
      { selectedCollections := allCollections.take 2
        reasoning := "AI analysis failed, showing first 2 collections as fallback. Error: " ++ message
        confidence := some (1 / 10) } ∧
    analyzePersonaCollections (.returned none) allCollections =
      { selectedCollections := allCollections.take 2
        reasoning := "AI response parsing failed, using fallback selection"
        confidence := some (1 / 5) } ∧
    analyzePersonaCollections (.returned (some fields)) allCollections =
      { selectedCollections := allCollections.take 2
        reasoning := "AI response parsing failed, using fallback selection"
        confidence := some (1 / 5) } := by
  refine ⟨rfl, rfl, ?_⟩
  unfold selHasArray at hsel
  rcases h : jsonField fields "selectedCollections" with _ | v
  · simp only [analyzePersonaCollections, parseClaudeResponse, h]
  · rw [h] at hsel
    simp only [analyzePersonaCollections, parseClaudeResponse, h]
    cases v <;> first | rfl | exact Bool.noConfusion hsel

/-- Witness for C1 at a concrete error message, collection list and
decoded object whose `selectedCollections` is a number. -/
theorem analyzePersonaCollections_fallback_levels_witness :
    selHasArray [("selectedCollections", Json.num 3)] = false ∧
    (analyzePersonaCollections (.threw "boom") fallbackCollections =
      { selectedCollections := fallbackCollections.take 2
        reasoning := "AI analysis failed, showing first 2 collections as fallback. Error: " ++ "boom"
        confidence := some (1 / 10) } ∧
    analyzePersonaCollections (.returned none) fallbackCollections =
      { selectedCollections := fallbackCollections.take 2
        reasoning := "AI response parsing failed, using fallback selection"
        confidence := some (1 / 5) } ∧
    analyzePersonaCollections (.returned (some [("selectedCollections", Json.num 3)])) fallbackCollections =
      { selectedCollections := fallbackCollections.take 2
        reasoning := "AI response parsing failed, using fallback selection"
        confidence := some (1 / 5) }) :=
  ⟨by rfl,
   analyzePersonaCollections_fallback_levels "boom" fallbackCollections
     [("selectedCollections", Json.num 3)] (by rfl)⟩

/-- The behaviour of `selectIndex` on a JSON number, by unfolding. -/
theorem selectIndex_num (allCollections : List Collection) (q : ℚ) :
    selectIndex allCollections (Json.num q) =
      if q.den = 1 ∧ 1 ≤ q then allCollections.get? (q.num - 1).toNat else none :=
  rfl

/-- C2 is refuted as stated on two conjuncts. Order: the selection keeps
the order in which the response listed the indices, not the original
input (prompt) order — over the static fallback list, the response
`selectedCollections = [2, 1]` yields the second then the first
collection, while the first two input collections in input order are the
first then the second. Confidence: an invalid but truthy confidence such
as the string "abc" is neither clamped into the unit interval nor
defaulted to 0.5 — the source computes the clamp of NaN, which is NaN,
modelled as `none`. -/
theorem parseClaudeResponse_claim_counterexample :
    (parseClaudeResponse
        (some [("selectedCollections", Json.arr [Json.num 2, Json.num 1])])
        fallbackCollections).selectedCollections.map (fun c => c.name) =
      [some "Shape Punks", some "Almost Normal"] ∧
    (fallbackCollections.take 2).map (fun c => c.name) =
      [some "Almost Normal", some "Shape Punks"] ∧
    ([some "Shape Punks", some "Almost Normal"] : List (Option String)) ≠
      [some "Almost Normal", some "Shape Punks"] ∧
    (parseClaudeResponse
        (some [("selectedCollections", Json.arr [Json.num 1]),
               ("confidence", Json.str "abc")])
        fallbackCollections).confidence = none := by
  exact ⟨by decide, by decide, by decide, by decide⟩

/-- C2 (amended): with an array-typed `selectedCollections`,
`parseClaudeResponse` maps each 1-based in-range integer index to the
input record at index minus one, silently drops indices that are zero,
out of range or not integers, and truncates to at most 4 records in the
order the response listed the indices; the confidence defaults to 0.5
when the field is absent or falsy, a numeric confidence is clamped into
the unit interval (the falsy zero defaulting to 0.5), and the reasoning
defaults to a fixed string when absent. -/
theorem parseClaudeResponse_selection_spec
    (allCollections : List Collection) (fields : List (String × Json))
    (idxs : List Json)
    (hsel : jsonField fields "selectedCollections" = some (Json.arr idxs)) :
    (parseClaudeResponse (some fields) allCollections).selectedCollections =
      (idxs.filterMap (selectIndex allCollections)).take 4 ∧
    (∀ k : ℕ, 1 ≤ k → k ≤ allCollections.length →
      selectIndex allCollections (Json.num (k : ℚ)) = allCollections.get? (k - 1)) ∧
    (∀ k : ℕ, k = 0 ∨ allCollections.length < k →
      selectIndex allCollections (Json.num (k : ℚ)) = none) ∧
    (parseClaudeResponse (some fields) allCollections).selectedCollections.length ≤ 4 ∧
    (jsonField fields "confidence" = none →
      (parseClaudeResponse (some fields) allCollections).confidence = some (1 / 2)) ∧
    (∀ v, jsonField fields "confidence" = some v → jsTruthy v = false →
      (parseClaudeResponse (some fields) allCollections).confidence = some (1 / 2)) ∧
    (∀ q : ℚ, jsonField fields "confidence" = some (Json.num q) →
      (parseClaudeResponse (some fields) allCollections).confidence =
        some (if q = 0 then 1 / 2 else max 0 (min 1 q))) ∧
    (∀ q : ℚ, jsonField fields "confidence" = some (Json.num q) →
      ∃ c, (parseClaudeResponse (some fields) allCollections).confidence = some c ∧
        0 ≤ c ∧ c ≤ 1) ∧
    (jsonField fields "reasoning" = none →
      (parseClaudeResponse (some fields) allCollections).reasoning = "AI analysis completed") := by
  have hparse : parseClaudeResponse (some fields) allCollections =
      { selectedCollections := (idxs.filterMap (selectIndex allCollections)).take 4
        reasoning := reasoningVal (jsonField fields "reasoning")
        confidence := confVal (jsonField fields "confidence") } := by
    simp only [parseClaudeResponse, hsel]
  refine ⟨by rw [hparse], ?_, ?_, ?_, ?_, ?_, ?_, ?_, ?_⟩
  · intro k hk1 hk2
    rw [selectIndex_num, if_pos ⟨Rat.den_natCast k, by exact_mod_cast hk1⟩]
    congr 1
    rw [Rat.num_natCast]
    omega
  · intro k hk
    rcases hk with rfl | hk
    · rw [selectIndex_num, if_neg]
      rintro ⟨-, h1⟩
      rw [Nat.cast_zero] at h1
      norm_num at h1
    · rcases Nat.eq_zero_or_pos k with rfl | hkpos
      · omega
      · rw [selectIndex_num,
          if_pos ⟨Rat.den_natCast k, by exact_mod_cast hkpos⟩]
        apply List.get?_eq_none.mpr
        rw [Rat.num_natCast]
        omega
  · rw [hparse]
    exact (List.length_take_le 4 _)
  · intro h
    rw [hparse]
    simp [confVal, h]
  · intro v hv hf
    rw [hparse]
    simp [confVal, hv, hf]
  · intro q hq
    rw [hparse]
    by_cases h0 : q = 0
    · subst h0
      simp [confVal, hq, jsTruthy]
    · simp [confVal, hq, jsTruthy, jsToNum, bne_iff_ne, h0]
  · intro q hq
    rw [hparse]
    by_cases h0 : q = 0
    · subst h0
      refine ⟨1 / 2, ?_, by norm_num, by norm_num⟩
      simp [confVal, hq, jsTruthy]
    · refine ⟨max 0 (min 1 q), ?_, le_max_left 0 _,
        max_le (by norm_num) (min_le_left 1 q)⟩
      simp [confVal, hq, jsTruthy, jsToNum, bne_iff_ne, h0]
  · intro h
    rw [hparse]
    simp [reasoningVal, h]

/-- Witness for C2 (amended) at the spec's example: `selectedCollections
= [1, 2, 99]` with no confidence field, over the 3-item fallback list,
selects exactly the first and second items and defaults the confidence
to 0.5. -/
theorem parseClaudeResponse_selection_spec_witness :
    jsonField [("selectedCollections", Json.arr [Json.num 1, Json.num 2, Json.num 99])]
        "selectedCollections" =
      some (Json.arr [Json.num 1, Json.num 2, Json.num 99]) ∧
    (parseClaudeResponse
        (some [("selectedCollections", Json.arr [Json.num 1, Json.num 2, Json.num 99])])
        fallbackCollections).selectedCollections =
      (([Json.num 1, Json.num 2, Json.num 99].filterMap
        (selectIndex fallbackCollections)).take 4) ∧
    (([Json.num 1, Json.num 2, Json.num 99].filterMap
        (selectIndex fallbackCollections)).take 4).map (fun c => c.name) =
      [some "Almost Normal", some "Shape Punks"] ∧
    (parseClaudeResponse
        (some [("selectedCollections", Json.arr [Json.num 1, Json.num 2, Json.num 99])])
        fallbackCollections).confidence = some (1 / 2) := by
  have h := parseClaudeResponse_selection_spec fallbackCollections
    [("selectedCollections", Json.arr [Json.num 1, Json.num 2, Json.num 99])]
    [Json.num 1, Json.num 2, Json.num 99] (by rfl)
  exact ⟨by rfl, h.1, by decide, h.2.2.2.2.1 rfl⟩

/-- Every branch of `loadCollectionsCache` stores in the cache exactly
what it returns. -/
theorem loadCache_cache_eq_result (env : LoadEnv) (cache : List Collection) :
    (loadCollectionsCache env cache).cache = (loadCollectionsCache env cache).result := by
  unfold loadCollectionsCache
  split_ifs <;> rfl

/-- A load from the empty cache always leaves a nonempty cache. -/
theorem loadCache_cache_ne_nil (env : LoadEnv) :
    (loadCollectionsCache env []).cache ≠ [] := by
  unfold loadCollectionsCache
  split_ifs with h1 h2 h3
  · simp at h1
  · simp [fallbackCollections]
  · simp [fallbackCollections]
  · apply List.ne_nil_of_length_pos
    simp [fetchAllShapeCollections]
    decide

/-- A load on a populated cache short-circuits: no probe, no fetch. -/
theorem loadCache_hit (env : LoadEnv) (cache : List Collection) (h : cache ≠ []) :
    loadCollectionsCache env cache =
      { result := cache, cache := cache, connectionTests := 0, batchFetches := 0 } := by
  unfold loadCollectionsCache
  rw [if_pos (List.length_pos.mpr h)]

/-- C3: two sequential `loadCollectionsCache` calls with no intervening
clear perform at most one connectivity probe and at most one upstream
batch fetch in total; the second call returns the first call's sequence
unchanged and performs no new network activity. -/
theorem loadCollectionsCache_at_most_one_fetch (env1 env2 : LoadEnv) :
    (loadCollectionsCache env2 (loadCollectionsCache env1 []).cache).result =
      (loadCollectionsCache env1 []).result ∧
    (loadCollectionsCache env2 (loadCollectionsCache env1 []).cache).connectionTests = 0 ∧
    (loadCollectionsCache env2 (loadCollectionsCache env1 []).cache).batchFetches = 0 ∧
    (loadCollectionsCache env1 []).connectionTests ≤ 1 ∧
    (loadCollectionsCache env1 []).batchFetches ≤ 1 := by
  rw [loadCache_hit env2 _ (loadCache_cache_ne_nil env1)]
  refine ⟨loadCache_cache_eq_result env1 [], rfl, rfl, ?_, ?_⟩
  · unfold loadCollectionsCache
    split_ifs <;> simp
  · unfold loadCollectionsCache
    split_ifs <;> simp

/-- C4 is refuted as stated: when both upstream calls fail by promise
rejection (the timeout and network-error mode, observed through
`Promise.allSettled`), `fetchCollectionData` returns a record whose name
is null — not a name starting with "Unknown Collection (" — and whose
image is the generic "Collection" placeholder rather than the
error-loading placeholder. -/
theorem fetchCollectionData_rejected_counterexample :
    (fetchCollectionData
        { nftsCall := CallOutcome.rejected, ownersCall := CallOutcome.rejected }
        "0x6E148B55e4Cd30Ea6727d7E0661c3918A6C4E9Db").name = none ∧
    (fetchCollectionData
        { nftsCall := CallOutcome.rejected, ownersCall := CallOutcome.rejected }
        "0x6E148B55e4Cd30Ea6727d7E0661c3918A6C4E9Db").image =
      "https://via.placeholder.com/300x300?text=Collection" := by
  exact ⟨rfl, rfl⟩

/-- C4 (amended): `fetchCollectionData` never raises to its caller. When
a capability invocation itself throws synchronously, it returns the
degraded record named "Unknown Collection (" followed by the first 6
characters of the address, with all optional fields null and the
error-loading placeholder image. When both upstream calls fail by
rejection, it returns a record with name, symbol, total supply and
owners all null and a generic placeholder image. -/
theorem fetchCollectionData_failure_spec (contractAddress : String)
    (upstream : UpstreamOutcome) :
    ((upstream.nftsCall = CallOutcome.threw ∨ upstream.ownersCall = CallOutcome.threw) →
      fetchCollectionData upstream contractAddress =
        { contractAddress := contractAddress
          name := some ("Unknown Collection (" ++ contractAddress.take 6 ++ "...)")
          symbol := none
          totalSupply := none
          owners := none
          image := "https://via.placeholder.com/300x300?text=Error+Loading"
          openSeaUrl := "https://opensea.io/assets/shape/" ++ contractAddress
          originalUrl := "https://shape.network/collection/" ++ contractAddress }) ∧
    (upstream.nftsCall = CallOutcome.rejected → upstream.ownersCall = CallOutcome.rejected →
      (fetchCollectionData upstream contractAddress).name = none ∧
      (fetchCollectionData upstream contractAddress).symbol = none ∧
      (fetchCollectionData upstream contractAddress).totalSupply = none ∧
      (fetchCollectionData upstream contractAddress).owners = none ∧
      (fetchCollectionData upstream contractAddress).image = placeholderImage "Collection") := by
  constructor
  · intro h
    unfold fetchCollectionData
    rw [if_pos h]
  · intro h1 h2
    rcases upstream with ⟨nc, oc⟩
    simp only at h1 h2
    subst h1
    subst h2
    exact ⟨rfl, rfl, rfl, rfl, rfl⟩

/-- Witness for C4 (amended): a synchronously throwing capability and a
pair of rejected calls, at a concrete address. -/
theorem fetchCollectionData_failure_spec_witness :
    fetchCollectionData
        { nftsCall := CallOutcome.threw, ownersCall := CallOutcome.rejected }
        "0xdad1276ecd6d27116da400b33c81ce49d91d5831" =
      { contractAddress := "0xdad1276ecd6d27116da400b33c81ce49d91d5831"
        name := some ("Unknown Collection (" ++
          "0xdad1276ecd6d27116da400b33c81ce49d91d5831".take 6 ++ "...)")
        symbol := none
        totalSupply := none
        owners := none
        image := "https://via.placeholder.com/300x300?text=Error+Loading"
        openSeaUrl := "https://opensea.io/assets/shape/" ++
          "0xdad1276ecd6d27116da400b33c81ce49d91d5831"
        originalUrl := "https://shape.network/collection/" ++
          "0xdad1276ecd6d27116da400b33c81ce49d91d5831" } ∧
    ((fetchCollectionData
        { nftsCall := CallOutcome.rejected, ownersCall := CallOutcome.rejected }
        "0xdad1276ecd6d27116da400b33c81ce49d91d5831").name = none ∧
      (fetchCollectionData
        { nftsCall := CallOutcome.rejected, ownersCall := CallOutcome.rejected }
        "0xdad1276ecd6d27116da400b33c81ce49d91d5831").symbol = none ∧
      (fetchCollectionData
        { nftsCall := CallOutcome.rejected, ownersCall := CallOutcome.rejected }
        "0xdad1276ecd6d27116da400b33c81ce49d91d5831").totalSupply = none ∧
      (fetchCollectionData
        { nftsCall := CallOutcome.rejected, ownersCall := CallOutcome.rejected }
        "0xdad1276ecd6d27116da400b33c81ce49d91d5831").owners = none ∧
      (fetchCollectionData
        { nftsCall := CallOutcome.rejected, ownersCall := CallOutcome.rejected }
        "0xdad1276ecd6d27116da400b33c81ce49d91d5831").image =
        placeholderImage "Collection") :=
  ⟨(fetchCollectionData_failure_spec "0xdad1276ecd6d27116da400b33c81ce49d91d5831"
      { nftsCall := CallOutcome.threw, ownersCall := CallOutcome.rejected }).1 (Or.inl rfl),
   (fetchCollectionData_failure_spec "0xdad1276ecd6d27116da400b33c81ce49d91d5831"
      { nftsCall := CallOutcome.rejected, ownersCall := CallOutcome.rejected }).2 rfl rfl⟩

/-- C5: with all three snapshots present, the local deep-dive synthesis
scores the market 80/60/40 by momentum, the holders 80 when the
concentration ratio is below 50 and 60 otherwise, the activity 80/70/50
by pattern, averages the three into the overall score, chooses "buy"
above 75 and "avoid" below 50 and "hold" otherwise, and reports the
rounded overall score as confidence; in particular bullish momentum,
concentration ratio 40 and an active pattern yield overall 80, thesis
"buy" and confidence 80. -/
theorem fetchAIAnalysis_local_synthesis (collection : Collection)
    (m : MarketAnalytics) (h : HolderAnalytics) (a : ActivityAnalytics) :
    (fetchAIAnalysis collection (some m) (some h) (some a)).investmentThesis =
      specThesis (specOverall m h a) ∧
    (fetchAIAnalysis collection (some m) (some h) (some a)).confidenceScore =
      jround (specOverall m h a) ∧
    (fetchAIAnalysis collection (some bullishMarket) (some lowConcentrationHolder)
      (some activeTrading)).investmentThesis = "buy" ∧
    (fetchAIAnalysis collection (some bullishMarket) (some lowConcentrationHolder)
      (some activeTrading)).confidenceScore = 80 ∧
    specOverall bullishMarket lowConcentrationHolder activeTrading = 80 := by
  refine ⟨rfl, rfl, ?_, ?_, by norm_num [specOverall, specMarketScore,
    specHolderScore, specActivityScore, bullishMarket, lowConcentrationHolder,
    activeTrading]⟩
  · show specThesis (specOverall bullishMarket lowConcentrationHolder activeTrading) = "buy"
    norm_num [specThesis, specOverall, specMarketScore, specHolderScore,
      specActivityScore, bullishMarket, lowConcentrationHolder, activeTrading]
  · show jround (specOverall bullishMarket lowConcentrationHolder activeTrading) = 80
    norm_num [jround, Rat.floor, specOverall, specMarketScore, specHolderScore,
      specActivityScore, bullishMarket, lowConcentrationHolder, activeTrading]

/-- C6 is partly refuted as stated: when the decoded analysis object
lacks `collectorProfile`, the handler substitutes a fixed generic
default that does not reference the collection name — the request below
names the collection "Foo" and the substituted default does not contain
"Foo" (the missing `culturalSignificance` and `reasoning` defaults do
reference the name). -/
theorem aiAnalysisPOST_profile_default_counterexample :
    aiAnalysisPOST
        { collection := some { contractAddress := some "0xabc123", name := some "Foo" } }
        true
        (.returned (some [("investmentThesis", Json.str "hold")])) =
      RouteResponse.success
        { investmentThesis := "hold"
          confidenceScore := 50
          culturalSignificance := "Foo represents unique digital culture on Shape Network."
          riskFactors := ["General market volatility", "Shape Network adoption risk"]
          opportunities := ["Early ecosystem participation", "Potential for growth"]
          comparableCollections := ["Similar Shape Network Collections", "Emerging NFT Projects"]
          collectorProfile := "Collectors interested in Shape Network digital assets"
          reasoning := "Foo shows potential as a Shape Network collection." } ∧
    strContains "Collectors interested in Shape Network digital assets" "Foo" = false ∧
    strContains "Foo represents unique digital culture on Shape Network." "Foo" = true := by
  exact ⟨by decide, by decide, by decide⟩

/-- C6 (amended): for a valid request with an API key, a generated text
with no brace-delimited JSON match is a hard failure returned as a 500
response carrying error and details, and a generated text whose match
decodes is structured without failing: the confidence is clamped into
0 to 100 with default 50, risk factors and opportunities are truncated
to at most 3 entries and comparable collections to at most 2, a missing
`culturalSignificance` or `reasoning` string takes a templated default
referencing the collection name, and a missing `collectorProfile` takes
a fixed generic default. -/
theorem aiAnalysisPOST_defensive_spec (addr collName msg : String)
    (haddr : addr ≠ "") (fields : List (String × Json)) :
    aiAnalysisPOST { collection := some { contractAddress := some addr, name := some collName } }
        true (.returned none) =
      RouteResponse.serverFailure "AI analysis failed" "No JSON found in Claude response" ∧
    aiAnalysisPOST { collection := some { contractAddress := some addr, name := some collName } }
        true (.threw msg) =
      RouteResponse.serverFailure "AI analysis failed" msg ∧
    aiAnalysisPOST { collection := some { contractAddress := some addr, name := some collName } }
        true (.returned (some fields)) =
      RouteResponse.success
        (buildRouteAnalysis { contractAddress := some addr, name := some collName } fields) ∧
    0 ≤ (buildRouteAnalysis { contractAddress := some addr, name := some collName }
      fields).confidenceScore ∧
    (buildRouteAnalysis { contractAddress := some addr, name := some collName }
      fields).confidenceScore ≤ 100 ∧
    (jsonField fields "confidenceScore" = none →
      (buildRouteAnalysis { contractAddress := some addr, name := some collName }
        fields).confidenceScore = 50) ∧
    (buildRouteAnalysis { contractAddress := some addr, name := some collName }
      fields).riskFactors.length ≤ 3 ∧
    (buildRouteAnalysis { contractAddress := some addr, name := some collName }
      fields).opportunities.length ≤ 3 ∧
    (buildRouteAnalysis { contractAddress := some addr, name := some collName }
      fields).comparableCollections.length ≤ 2 ∧
    (jsonField fields "culturalSignificance" = none →
      (buildRouteAnalysis { contractAddress := some addr, name := some collName }
        fields).culturalSignificance =
        collName ++ " represents unique digital culture on Shape Network.") ∧
    (jsonField fields "reasoning" = none →
      (buildRouteAnalysis { contractAddress := some addr, name := some collName }
        fields).reasoning = collName ++ " shows potential as a Shape Network collection.") ∧
    (jsonField fields "collectorProfile" = none →
      (buildRouteAnalysis { contractAddress := some addr, name := some collName }
        fields).collectorProfile = "Collectors interested in Shape Network digital assets") := by
  have hroute : ∀ gen, aiAnalysisPOST
      { collection := some { contractAddress := some addr, name := some collName } }
      true gen =
      (match gen with
       | .threw message => RouteResponse.serverFailure "AI analysis failed" message
       | .returned none =>
         RouteResponse.serverFailure "AI analysis failed" "No JSON found in Claude response"
       | .returned (some fs) =>
         RouteResponse.success
           (buildRouteAnalysis { contractAddress := some addr, name := some collName } fs)) := by
    intro gen
    simp only [aiAnalysisPOST]
    rw [if_neg (by simpa using haddr)]
    rfl
  refine ⟨hroute _, hroute _, hroute _, ?_, ?_, ?_, ?_, ?_, ?_, ?_, ?_, ?_⟩
  · exact le_max_left 0 _
  · exact max_le (by norm_num) (min_le_left 100 _)
  · intro h
    simp only [buildRouteAnalysis, parseIntJson, h]
    rfl
  · show (routeStrList (jsonField fields "riskFactors") 3 _).length ≤ 3
    rcases h : jsonField fields "riskFactors" with _ | v
    · simp [routeStrList]
    · cases v <;> simp [routeStrList]
  · show (routeStrList (jsonField fields "opportunities") 3 _).length ≤ 3
    rcases h : jsonField fields "opportunities" with _ | v
    · simp [routeStrList]
    · cases v <;> simp [routeStrList]
  · show (routeStrList (jsonField fields "comparableCollections") 2 _).length ≤ 2
    rcases h : jsonField fields "comparableCollections" with _ | v
    · simp [routeStrList]
    · cases v <;> simp [routeStrList]
  · intro h
    simp only [buildRouteAnalysis, routeStr, h, Option.getD_some]
  · intro h
    simp only [buildRouteAnalysis, routeStr, h, Option.getD_some]
  · intro h
    simp only [buildRouteAnalysis, routeStr, h]

/-- Witness for C6 (amended) at a concrete address, collection name and
an empty decoded object: all three missing-string defaults and the
default confidence are exercised. -/
theorem aiAnalysisPOST_defensive_spec_witness :
    ("0x1234" : String) ≠ "" ∧
    aiAnalysisPOST { collection := some { contractAddress := some "0x1234", name := some "Bar" } }
        true (.returned none) =
      RouteResponse.serverFailure "AI analysis failed" "No JSON found in Claude response" ∧
    (buildRouteAnalysis { contractAddress := some "0x1234", name := some "Bar" }
      []).confidenceScore = 50 ∧
    (buildRouteAnalysis { contractAddress := some "0x1234", name := some "Bar" }
      []).culturalSignificance =
      "Bar" ++ " represents unique digital culture on Shape Network." ∧
    (buildRouteAnalysis { contractAddress := some "0x1234", name := some "Bar" }
      []).collectorProfile = "Collectors interested in Shape Network digital assets" := by
  have h := aiAnalysisPOST_defensive_spec "0x1234" "Bar" "x" (by decide) []
  exact ⟨by decide, h.1, h.2.2.2.2.2.1 rfl, h.2.2.2.2.2.2.2.2.2.1 rfl,
    h.2.2.2.2.2.2.2.2.2.2.2 rfl⟩

/-- C7: the batch fetch over the hardcoded 16-address list returns a
sequence of length at most 16, processed strictly in list order with one
output per address regardless of that item's upstream outcome (a failing
item never aborts the loop), while the progress values it reports are
non-decreasing, lie within 0 to 100, and end at exactly 100. -/
theorem fetchAllShapeCollections_progress_spec (upstream : String → UpstreamOutcome) :
    (fetchAllShapeCollections upstream).1 =
      SHAPE_COLLECTION_CONTRACTS.map (fun a => fetchCollectionData (upstream a) a) ∧
    (fetchAllShapeCollections upstream).1.length ≤ SHAPE_COLLECTION_CONTRACTS.length ∧
    SHAPE_COLLECTION_CONTRACTS.length = 16 ∧
    (fetchAllShapeCollections upstream).2 =
      [0, 0, 6, 13, 19, 25, 31, 38, 44, 50, 56, 63, 69, 75, 81, 88, 94, 100] ∧
    List.Chain' (fun p q => p ≤ q)
      ([0, 0, 6, 13, 19, 25, 31, 38, 44, 50, 56, 63, 69, 75, 81, 88, 94, 100] : List Int) ∧
    (([0, 0, 6, 13, 19, 25, 31, 38, 44, 50, 56, 63, 69, 75, 81, 88, 94, 100] : List Int).all
      (fun p => decide (0 ≤ p ∧ p ≤ 100))) = true ∧
    ([0, 0, 6, 13, 19, 25, 31, 38, 44, 50, 56, 63, 69, 75, 81, 88, 94, 100] : List Int).getLast? =
      some 100 := by
  refine ⟨rfl, ?_, by decide,
    ?_, by norm_num [List.chain'_cons, List.chain'_singleton], by decide, by decide⟩
  · simp [fetchAllShapeCollections]
  · show (0 : Int) :: (((List.range SHAPE_COLLECTION_CONTRACTS.length).map
      (fun i => jround ((i : ℚ) / (SHAPE_COLLECTION_CONTRACTS.length : ℚ) * 100))) ++ [100]) = _
    norm_num [SHAPE_COLLECTION_CONTRACTS, List.range_succ, jround, Rat.floor]

/-- C8: market health reports the number of events considered (at most
the 20 most recent), the size of the union of the from-address and
to-address sets over those events, the bullish/neutral/bearish momentum
thresholds at 10 and 5, and a liquidity score of exactly the minimum of
100 and five times the count — 11 events give bullish, 6 neutral, 3
bearish. -/
theorem fetchMarketHealth_classification_spec (collection : Collection)
    (transfers : List Transfer) :
    (fetchMarketHealth collection transfers).transferCount24h =
      (transfers.take 20).length ∧
    (fetchMarketHealth collection transfers).uniqueTraders24h =
      (((transfers.take 20).map (fun t => t.fromAddr)).toFinset ∪
        ((transfers.take 20).map (fun t => t.toAddr)).toFinset).card ∧
    (fetchMarketHealth collection transfers).momentum =
      (if (transfers.take 20).length > 10 then "bullish"
       else if (transfers.take 20).length > 5 then "neutral" else "bearish") ∧
    (fetchMarketHealth collection transfers).liquidityScore =
      min 100 (((transfers.take 20).length : ℚ) * 5) ∧
    (fetchMarketHealth sampleCollection (mkTransferList 11)).momentum = "bullish" ∧
    (fetchMarketHealth sampleCollection (mkTransferList 6)).momentum = "neutral" ∧
    (fetchMarketHealth sampleCollection (mkTransferList 3)).momentum = "bearish" ∧
    (fetchMarketHealth sampleCollection (mkTransferList 3)).liquidityScore = 15 := by
  refine ⟨rfl, ?_, rfl, rfl, by decide, by decide, by decide, ?_⟩
  · show ((((transfers.take 20).map (fun t => t.fromAddr)) ++
      ((transfers.take 20).map (fun t => t.toAddr))).dedup).length = _
    rw [← List.toFinset_append, List.card_toFinset]
  · show min 100 ((((mkTransferList 3).take 20).length : ℚ) * 5) = 15
    norm_num [mkTransferList]

/-- C9: whenever the connectivity probe fails or an unexpected exception
interrupts the successful-probe path, `loadCollectionsCache` catches the
condition internally, stores the static fallback set of exactly 3
literal collections in the cache and returns it; every load from the
empty cache leaves the cache populated, and the function is total so it
never raises to its caller. -/
theorem loadCollectionsCache_fallback_spec (env : LoadEnv) :
    ((env.connected = false ∨ env.unexpectedError = true) →
      loadCollectionsCache env [] =
        { result := fallbackCollections
          cache := fallbackCollections
          connectionTests := 1
          batchFetches := if env.connected then 1 else 0 }) ∧
    fallbackCollections.length = 3 ∧
    (loadCollectionsCache env []).cache ≠ [] := by
  refine ⟨?_, by decide, loadCache_cache_ne_nil env⟩
  intro h
  unfold loadCollectionsCache
  rcases hc : env.connected with _ | _
  · simp [hc]
  · have hu : env.unexpectedError = true := by
      rcases h with h | h
      · rw [hc] at h
        cases h
      · exact h
    simp [hc, hu]

/-- Witness for C9 at a concrete environment whose connectivity probe
fails. -/
theorem loadCollectionsCache_fallback_spec_witness :
    loadCollectionsCache
        { connected := false, unexpectedError := false
          upstream := fun _ => { nftsCall := CallOutcome.rejected, ownersCall := CallOutcome.rejected } }
        [] =
      { result := fallbackCollections
        cache := fallbackCollections
        connectionTests := 1
        batchFetches := 0 } ∧
    fallbackCollections.length = 3 ∧
    (loadCollectionsCache
        { connected := false, unexpectedError := false
          upstream := fun _ => { nftsCall := CallOutcome.rejected, ownersCall := CallOutcome.rejected } }
        []).cache ≠ [] := by
  have h := loadCollectionsCache_fallback_spec
    { connected := false, unexpectedError := false
      upstream := fun _ => { nftsCall := CallOutcome.rejected, ownersCall := CallOutcome.rejected } }
  exact ⟨h.1 (Or.inl rfl), h.2.1, h.2.2⟩

/-- C10: `isShapeNetworkCollection` holds exactly when the lowercased
address is, character for character, an element of the hardcoded curated
list; since several entries of that list contain uppercase hexadecimal
characters, the list's own first entry fails the predicate — membership
in the curated list does not imply the predicate holds. -/
theorem isShapeNetworkCollection_lowercase_spec (contractAddress : String) :
    (isShapeNetworkCollection contractAddress = true ↔
      jsToLowerCase contractAddress ∈ SHAPE_COLLECTION_CONTRACTS) ∧
    "0x6E148B55e4Cd30Ea6727d7E0661c3918A6C4E9Db" ∈ SHAPE_COLLECTION_CONTRACTS ∧
    isShapeNetworkCollection "0x6E148B55e4Cd30Ea6727d7E0661c3918A6C4E9Db" = false := by
  refine ⟨?_, by decide, by decide⟩
  unfold isShapeNetworkCollection List.contains
  rw [List.elem_eq_mem]
  exact decide_eq_true_iff

end ShapeMeAI
